import Mathlib

/-!
Shallow embedding of the cloudflare-router request-routing engine.

The repository contains two generations of the router:

* the legacy implementation in src/src/Router.ts, src/src/RouterRequest.ts and
  src/src/RouterResponse.ts (namespace Legacy below), and
* the rewritten implementation in src/src/router/Route.ts, RoutePath.ts,
  Router.ts, RouterRequest.ts, together with its variants kept in
  src/unnamed/part_000 (Route.ts), src/unnamed/part_001 (RouterRequest.ts and
  Router.ts) and src/unnamed/part_002 (RouterResponse.ts) (namespace V2 below).

JS strings are modelled as lists of characters.  The url-pattern npm package
is an external collaborator; its compiled matcher is modelled as an abstract
function from a fixed pattern string and a request path to an optional
parameter map, which every theorem quantifies over.
-/

/-- JS strings, modelled as lists of characters. -/
abbrev Str := List Char

/-- Converts a Lean string literal to the JS string model. -/
def str (s : String) : Str := s.data

/-- JS s.endsWith(c) for a one-character string c. -/
def endsWithChar (s : Str) (c : Char) : Bool := decide (s.getLast? = some c)

/-- JS s.startsWith sl for the one-character string consisting of a slash. -/
def startsWithSlash (s : Str) : Bool := decide (s.head? = some '/')

/-- NO_APPEND_SLASH_IF_CHARACTERS, identical in src/src/Router.ts and
src/src/router/Router.ts: path endings that suppress the trailing slash. -/
def noAppendSlashIfCharacters : List Char := ['*', ')', '?']

/-- The trailing-slash policy shared by the fixers: append one slash unless the
path already ends with a slash or with a no-append character.  This is the
conditional append statement of Router.fixPath in src/src/router/Router.ts
lines 77-79 (and the ternary in fixHandlerPath of src/src/Router.ts). -/
def jsAppendTrailingSlash (fixedPath : Str) : Str :=
  if !endsWithChar fixedPath '/'
      && !(noAppendSlashIfCharacters.any fun c => endsWithChar fixedPath c) then
    fixedPath ++ ['/']
  else
    fixedPath

/-- The HTTP methods of type Methods in src/src/Router.ts line 7 and
src/src/router/Router.ts line 6. -/
inductive Method where
  | ANY | GET | POST | PUT | PATCH | OPTIONS | HEAD | DELETE
deriving DecidableEq

/-- A parameter map extracted by a compiled url-pattern matcher. -/
abbrev Params := List (Str × Str)

/-- The url-pattern library (an external dependency) compiled to a match
function: given the fixed pattern string and a request path it returns the
parameter map when the path matches and none otherwise. -/
abbrev Matcher := Str → Str → Option Params

/-- The errors thrown by the routers; each constructor corresponds to one
throw statement in the sources (messages abbreviated to constructor names). -/
inductive RouterError where
  | noResponseHandler
  | responseHandlerIsRouter
  | mainRouterAlreadyAssigned
  | notMainAtRoot
  | notAFunction
  | noRedirectUrl
  | noCustomResponse
  | handlerFailure (code : Nat)
deriving DecidableEq

/-- A route handler function.  The source distinguishes the two forms by the
declared parameter count of the JS function: a handler that declares the
continuation parameter (withNext) and a handler that does not (auto).  An
auto handler may reject, modelled by Except. -/
inductive FnT (σ : Type) where
  | withNext (f : σ → σ × Bool)
  | auto (f : σ → Except RouterError σ)

/-- The execution trace of one dispatched request: which middleware steps ran
(by routeIndex) and whether the terminal handler ran. -/
inductive Ev where
  | mw (routeIndex : Nat)
  | terminal (routeIndex : Nat)
deriving DecidableEq

/-- Stable insertion used by stableSortBy. -/
def stableInsert (le : α → α → Bool) (x : α) : List α → List α
  | [] => [x]
  | y :: ys => if le x y then x :: y :: ys else y :: stableInsert le x ys

/-- A stable comparison sort, modelling JS Array.prototype.sort (required to
be stable since ES2019) for a total-preorder comparator. -/
def stableSortBy (le : α → α → Bool) : List α → List α
  | [] => []
  | x :: xs => stableInsert le x (stableSortBy le xs)

/-- A built platform Response value.  new Response(body, init) is modelled by
page, Response.redirect(url, status) by redirected, and a caller-provided
Response object by external. -/
inductive Resp where
  | page (body : Option Str) (status : Nat) (statusText : Str) (headers : List (Str × Str))
  | redirected (url : Option Str) (status : Option Nat)
  | external (id : Nat)
deriving DecidableEq

/-- The three response kinds of responseOptions.type. -/
inductive RKind where
  | normal | redirect | custom
deriving DecidableEq

/-- JS object property assignment on a string-keyed record modelled as an
association list: overwrite in place if the key exists, else append. -/
def setHeaderKV (hs : List (Str × Str)) (k v : Str) : List (Str × Str) :=
  if hs.any fun p => decide (p.1 = k) then
    hs.map fun p => if p.1 = k then (k, v) else p
  else
    hs ++ [(k, v)]

namespace V2

/-- Router.fixPath from src/src/router/Router.ts lines 74-84 (identical in
src/unnamed/part_001 lines 165-176): prepends the basePath (stripping one
leading slash from the input) and appends a trailing slash unless the result
already ends with a slash or with a no-append character. -/
def fixPath (basePath inputPath : Str) : Str :=
  jsAppendTrailingSlash
    (basePath ++ (if startsWithSlash inputPath then inputPath.drop 1 else inputPath))

/-- The fields of RouterRequest (src/src/router/RouterRequest.ts) used by
dispatch: the parsed path and method, plus the matched data set by
setMatchedParams and setMatchedRoute (the matched route is tracked by its
routeIndex).  URL/header/query parsing is an external collaborator. -/
structure ReqState where
  path : Str
  method : Method
  matchedParams : Option Params := none
  matchedRouteIndex : Option Nat := none
deriving DecidableEq

/-- The responseOptions accumulator plus locals of RouterResponse
(src/unnamed/part_002), with the matched route tracked by routeIndex. -/
structure RespState where
  rType : RKind := RKind.normal
  status : Str := str "OK"
  statusCode : Nat := 200
  headers : List (Str × Str) := []
  tasks : List Nat := []
  body : Option Str := none
  redirectToUrl : Option Str := none
  redirectStatusCode : Option Nat := none
  customResponse : Option Resp := none
  locals : List (Str × Str) := []
  matchedRouteIndex : Option Nat := none
deriving DecidableEq

/-- The per-request dispatch state: the RouterRequest and RouterResponse pair
threaded through middlewares and the terminal handler. -/
structure DState where
  req : ReqState
  res : RespState
deriving DecidableEq

mutual

inductive RouterT (σ : Type) : Type where
  | node (basePath : Str) (routes : RouteListT σ) : RouterT σ

inductive RouteListT (σ : Type) : Type where
  | nil : RouteListT σ
  | cons (head : RouteT σ) (tail : RouteListT σ) : RouteListT σ

inductive RouteT (σ : Type) : Type where
  | mk (method : Method) (inputPath : Str) (fixedPath : Str) (isMiddleware : Bool)
      (routeIndex : Nat) (handler : HandlerT σ) : RouteT σ

inductive HandlerT (σ : Type) : Type where
  | fn (f : FnT σ) : HandlerT σ
  | sub (child : RouterT σ) : HandlerT σ

end

variable {σ : Type}

def RouteT.method : RouteT σ → Method
  | .mk m _ _ _ _ _ => m

def RouteT.inputPath : RouteT σ → Str
  | .mk _ p _ _ _ _ => p

def RouteT.fixedPath : RouteT σ → Str
  | .mk _ _ f _ _ _ => f

def RouteT.isMiddleware : RouteT σ → Bool
  | .mk _ _ _ b _ _ => b

def RouteT.routeIndex : RouteT σ → Nat
  | .mk _ _ _ _ i _ => i

def RouteT.handler : RouteT σ → HandlerT σ
  | .mk _ _ _ _ _ h => h

/-- Route.isRouteHandlerRouter from src/src/router/Route.ts: whether the
handler is a Router instance (stored as the isHandlerRouter field). -/
def RouteT.isHandlerRouter (r : RouteT σ) : Bool :=
  match r.handler with
  | .sub _ => true
  | .fn _ => false

/-- The MatchingRoute record of src/src/router/Router.ts lines 22-25: a
matched route together with the url-pattern match data. -/
structure MatchingRoute (σ : Type) where
  route : RouteT σ
  matchData : Params

/-- The method comparison of Route.matchesRequest (src/src/router/Route.ts):
ANY matches everything, otherwise the methods must be equal. -/
def methodMatches (m reqMethod : Method) : Bool :=
  decide (m = Method.ANY) || decide (m = reqMethod)

mutual

/-- Router.findMatchingRoutes from src/src/router/Router.ts lines 161-183
(identical in src/unnamed/part_001 lines 287-309): walk the routes in
registration order; recurse into sub-routers (appending their matches in
place), otherwise test the compiled pattern and the method and collect the
match data. -/
def findMatchingRoutes (M : Matcher) (req : ReqState) : RouterT σ → List (MatchingRoute σ)
  | .node _ routes => findMatchingRoutesList M req routes

def findMatchingRoutesList (M : Matcher) (req : ReqState) :
    RouteListT σ → List (MatchingRoute σ)
  | .nil => []
  | .cons (.mk _m _ip _fp _mw _idx (.sub child)) rest =>
      findMatchingRoutes M req child ++ findMatchingRoutesList M req rest
  | .cons (.mk m ip fp mw idx (.fn f)) rest =>
      (match M fp req.path with
        | some ps =>
            if methodMatches m req.method then
              [⟨.mk m ip fp mw idx (.fn f), ps⟩]
            else
              []
        | none => []) ++ findMatchingRoutesList M req rest

end

/-- The ascending comparator (a, b) => a.route.routeIndex - b.route.routeIndex
of src/unnamed/part_001 line 436, as a total preorder for the stable sort. -/
def mwLeAscending (a b : MatchingRoute σ) : Bool :=
  decide (a.route.routeIndex ≤ b.route.routeIndex)

/-- The descending comparator (a, b) => b.route.routeIndex - a.route.routeIndex
of src/src/router/Router.ts line 274, as a total preorder for the stable
sort. -/
def mwLeDescending (a b : MatchingRoute σ) : Bool :=
  decide (b.route.routeIndex ≤ a.route.routeIndex)

/-- Router.executeMiddleware from src/unnamed/part_001 lines 496-526 (and
src/src/router/Router.ts lines 320-353, which only differs in the additional
additionalData argument and in checking handler.length against 4 instead
of 3).  A handler that declares the continuation parameter is called and the
chain waits for the boolean passed to the continuation.  For every other
handler the source executes `await (async () => handler(request, response))`:
the async closure is constructed but never applied, so the handler body never
runs and the promise resolves true.  A Router instance stored as the handler
takes the same branch (its length property is not the required arity), so it
also continues without doing anything. -/
def executeMiddleware (r : RouteT σ) (s : σ) : σ × Bool :=
  match r.handler with
  | .fn (.withNext f) => f s
  | .fn (.auto f) =>
      let _neverInvokedClosure := fun (_ : Unit) => f s
      (s, true)
  | .sub _ => (s, true)

/-- The terminal-handler invocation `await handler(request, response)` of
src/unnamed/part_001 lines 459-462.  An auto handler runs and may reject.  A
withNext handler is called without its continuation argument; its state
update happens and the continuation decision is dropped.  A Router instance
cast to a function and called raises a TypeError. -/
def invokeTerminal (r : RouteT σ) (s : σ) : Except RouterError σ :=
  match r.handler with
  | .fn (.auto f) => f s
  | .fn (.withNext f) => Except.ok (f s).1
  | .sub _ => Except.error RouterError.notAFunction

/-- The middleware for-loop of processRequest (src/unnamed/part_001 lines
438-452): run each middleware in order; on the first unsuccessful one stop
and record failure.  The list of executed route indices is returned as an
instrumentation trace. -/
def runMiddlewareLoop : List (MatchingRoute σ) → σ → σ × Bool × List Ev
  | [], s => (s, true, [])
  | m :: rest, s =>
      match executeMiddleware m.route s with
      | (s1, true) =>
          match runMiddlewareLoop rest s1 with
          | (s2, allOk, tr) => (s2, allOk, Ev.mw m.route.routeIndex :: tr)
      | (s1, false) => (s1, false, [Ev.mw m.route.routeIndex])

/-- The middleware selection of processRequest (src/unnamed/part_001 lines
410-412): matched routes that are declared middlewares and whose handler is
not a Router. -/
def foundMiddlewares (M : Matcher) (req : ReqState) (r : RouterT σ) :
    List (MatchingRoute σ) :=
  ((findMatchingRoutes M req r).filter fun m => m.route.isMiddleware).filter
    fun m => !m.route.isHandlerRouter

/-- The response-handler selection of processRequest (src/unnamed/part_001
lines 416-418): the first matched non-middleware route. -/
def responseHandlerOf (M : Matcher) (req : ReqState) (r : RouterT σ) :
    Option (MatchingRoute σ) :=
  ((findMatchingRoutes M req r).filter fun m => !m.route.isMiddleware).head?

/-- The sorted middleware list of processRequest (src/unnamed/part_001 lines
435-436 and src/src/router/Router.ts lines 273-274); the comparator is the
only difference between the two files. -/
def orderedMiddlewares (le : MatchingRoute σ → MatchingRoute σ → Bool)
    (M : Matcher) (req : ReqState) (r : RouterT σ) : List (MatchingRoute σ) :=
  stableSortBy le (foundMiddlewares M req r)

/-- The BuiltResponseObject of src/unnamed/part_002 lines 19-24. -/
structure BuiltResponseObject where
  tasks : List Nat
  response : Option Resp
  routerResponse : RespState
  routerRequest : ReqState
deriving DecidableEq

/-- RouterResponse.build from src/unnamed/part_002 lines 250-281.  The main
router found through getMainRouter is represented by its resolved
customResponseBuilder (builder); when it is configured it takes priority,
otherwise the redirect/normal/custom response value is assembled.  The
missing-value assertions of the source (redirectToUrl! and customResponse!)
produce undefined rather than throwing, modelled by the Option fields. -/
def build (builder : Option (RespState → Resp)) (req : ReqState) (res : RespState) :
    BuiltResponseObject :=
  let finalResponse : Option Resp :=
    match builder with
    | some b => some (b res)
    | none =>
        if res.rType = RKind.redirect then
          some (Resp.redirected res.redirectToUrl res.redirectStatusCode)
        else if res.rType = RKind.normal then
          some (Resp.page res.body res.statusCode res.status res.headers)
        else
          res.customResponse
  ⟨res.tasks, finalResponse, res, req⟩

/-- Router.finishResponse from src/unnamed/part_001 lines 473-485: build the
response, then override the response value again with the main router's
customResponseBuilder when one is configured. -/
def finishResponse (builder : Option (RespState → Resp)) (s : DState) :
    BuiltResponseObject :=
  let built := build builder s.req s.res
  match builder with
  | some b => { built with response := some (b s.res) }
  | none => built

/-- Router.setMatchedParams / setMatchedRoute updates of processRequest
(src/unnamed/part_001 lines 428-430). -/
def setMatched (rh : MatchingRoute DState) (s : DState) : DState :=
  ⟨{ s.req with
      matchedParams := some rh.matchData,
      matchedRouteIndex := some rh.route.routeIndex },
    { s.res with matchedRouteIndex := some rh.route.routeIndex }⟩

/-- Router.processRequest, parameterized by the middleware sort comparator,
which is the only difference between src/src/router/Router.ts lines 239-304
and src/unnamed/part_001 lines 401-465: find the matching routes, select the
middlewares and the first non-middleware match, fail when there is none,
record the matched route and params, sort the middlewares, run the chain with
abort semantics, then run the terminal handler and finish the response. -/
def processRequestWith (le : MatchingRoute DState → MatchingRoute DState → Bool)
    (builder : Option (RespState → Resp)) (M : Matcher) (r : RouterT DState)
    (s0 : DState) : Except RouterError (BuiltResponseObject × List Ev) :=
  match responseHandlerOf M s0.req r with
  | none => Except.error RouterError.noResponseHandler
  | some rh =>
      match runMiddlewareLoop (orderedMiddlewares le M s0.req r) (setMatched rh s0) with
      | (s2, true, tr) =>
          match invokeTerminal rh.route s2 with
          | Except.ok s3 =>
              Except.ok (finishResponse builder s3, tr ++ [Ev.terminal rh.route.routeIndex])
          | Except.error e => Except.error e
      | (s2, false, tr) => Except.ok (finishResponse builder s2, tr)

/-- Router.processRequest of src/src/router/Router.ts lines 239-304, whose
comparator (a, b) => b.route.routeIndex - a.route.routeIndex sorts the
middlewares in descending routeIndex order. -/
def processRequest (builder : Option (RespState → Resp)) (M : Matcher)
    (r : RouterT DState) (s0 : DState) :
    Except RouterError (BuiltResponseObject × List Ev) :=
  processRequestWith mwLeDescending builder M r s0

/-- Router.processRequest of src/unnamed/part_001 lines 401-465, whose
comparator (a, b) => a.route.routeIndex - b.route.routeIndex sorts the
middlewares in ascending routeIndex order. -/
def processRequestP1 (builder : Option (RespState → Resp)) (M : Matcher)
    (r : RouterT DState) (s0 : DState) :
    Except RouterError (BuiltResponseObject × List Ev) :=
  processRequestWith mwLeAscending builder M r s0

/-- The main-router bookkeeping fields of Router (src/src/router/Router.ts
lines 43-49): mainRouter references another Router by an id.  The constructor
sets both to null/false, and no statement anywhere in the sources ever
assigns mainRouter afterwards (the body of assignSelfAsMainRouter ends with
the unimplemented comment about updating descendants). -/
structure MainFlags where
  mainRouter : Option Nat := none
  isMainRouter : Bool := false
deriving DecidableEq

/-- Router.assignSelfAsMainRouter from src/src/router/Router.ts lines 151-159
(identical in src/unnamed/part_001 lines 271-279): throw when mainRouter is
already set, otherwise mark this router as main. -/
def assignSelfAsMainRouter (m : MainFlags) : Except RouterError MainFlags :=
  match m.mainRouter with
  | some _ => Except.error RouterError.mainRouterAlreadyAssigned
  | none => Except.ok { m with isMainRouter := true }

/-- The lazy main-assignment guard of serveRequest in src/src/router/Router.ts
lines 359-361: assign self as main when the isMainRouter flag is not set. -/
def serveRequestGuard (m : MainFlags) : Except RouterError MainFlags :=
  if !m.isMainRouter then assignSelfAsMainRouter m else Except.ok m

/-- The lazy main-assignment guard of serveRequest in src/unnamed/part_001
lines 539-541: assign self as main when neither mainRouter nor the
isMainRouter flag is set. -/
def serveRequestGuardP1 (m : MainFlags) : Except RouterError MainFlags :=
  if m.mainRouter.isNone && !m.isMainRouter then assignSelfAsMainRouter m else Except.ok m

/-- Router.serveRequest from src/src/router/Router.ts lines 355-376: run the
lazy main-assignment guard, construct fresh RouterRequest and RouterResponse
values for the incoming request (URL parsing is external, so the parsed path
and method are taken as the request), and hand over to processRequest. -/
def serveRequest (builder : Option (RespState → Resp)) (M : Matcher)
    (r : RouterT DState) (m : MainFlags) (req : ReqState) :
    Except RouterError (BuiltResponseObject × List Ev) × MainFlags :=
  match serveRequestGuard m with
  | Except.error e => (Except.error e, m)
  | Except.ok m1 =>
      (processRequest builder M r ⟨{ req with matchedParams := none, matchedRouteIndex := none }, {}⟩, m1)

/-- The RouteOptions record of src/src/router/Route.ts lines 7-13. -/
structure RouteOptions (σ : Type) where
  path : Str
  handler : HandlerT σ
  method : Method
  isMiddleware : Bool
  routeIndex : Option Nat := none

/-- The Route constructor of src/src/router/Route.ts lines 68-77 together
with Router.createRoute: the fixed path is computed by RoutePath through the
owning router's fixPath; the route index is `options.routeIndex ||
lastRouteIndex++`, so a provided index of 0 is falsy in JS and a fresh
counter value is consumed instead; isMiddleware is `options.isMiddleware ||
this.isRouteMiddleware()` where isRouteMiddleware reads the not-yet-assigned
field, hence it contributes false and the result is options.isMiddleware.
The global counter lastRouteIndex is threaded explicitly. -/
def createRoute (basePath : Str) (opts : RouteOptions σ) (lastRouteIndex : Nat) :
    RouteT σ × Nat :=
  match opts.routeIndex with
  | some i =>
      if i = 0 then
        (RouteT.mk opts.method opts.path (fixPath basePath opts.path) opts.isMiddleware
          lastRouteIndex opts.handler, lastRouteIndex + 1)
      else
        (RouteT.mk opts.method opts.path (fixPath basePath opts.path) opts.isMiddleware
          i opts.handler, lastRouteIndex)
  | none =>
      (RouteT.mk opts.method opts.path (fixPath basePath opts.path) opts.isMiddleware
        lastRouteIndex opts.handler, lastRouteIndex + 1)

end V2

/-- A matcher whose compiled pattern matches every path with no parameters. -/
def alwaysMatcher : Matcher := fun _ _ => some []

/-- A matcher whose compiled pattern matches no path at all. -/
def noneMatcher : Matcher := fun _ _ => none

/-- A router with no registered routes (basePath keeps its constructor
default). -/
def emptyRouterV2 : V2.RouterT V2.DState := V2.RouterT.node (str "/") V2.RouteListT.nil

/-- Claim C1 scenario, middleware registered first: router.use with a matching
path, routeIndex 0, auto-continue disabled so the step is observable. -/
def c1Route0 : V2.RouteT V2.DState :=
  V2.RouteT.mk Method.ANY (str "/*") (V2.fixPath (str "/") (str "/*")) true 0
    (V2.HandlerT.fn (FnT.withNext fun s => (s, true)))

/-- Claim C1 scenario, middleware registered second with routeIndex 1. -/
def c1Route1 : V2.RouteT V2.DState :=
  V2.RouteT.mk Method.ANY (str "/*") (V2.fixPath (str "/") (str "/*")) true 1
    (V2.HandlerT.fn (FnT.withNext fun s => (s, true)))

/-- Claim C1 scenario, the terminal GET route with routeIndex 2. -/
def c1Route2 : V2.RouteT V2.DState :=
  V2.RouteT.mk Method.GET (str "/has-touched") (V2.fixPath (str "/") (str "/has-touched"))
    false 2 (V2.HandlerT.fn (FnT.auto fun s => Except.ok s))

/-- Claim C1 scenario tree: two middlewares and one terminal route registered
in routeIndex order on the root router. -/
def c1Tree : V2.RouterT V2.DState :=
  V2.RouterT.node (str "/")
    (V2.RouteListT.cons c1Route0
      (V2.RouteListT.cons c1Route1 (V2.RouteListT.cons c1Route2 V2.RouteListT.nil)))

/-- Claim C1 scenario initial dispatch state for GET /has-touched/. -/
def c1Init : V2.DState := ⟨⟨str "/has-touched/", Method.GET, none, none⟩, {}⟩

/-- Claim C9 scenario: middleware with routeIndex 0 that continues. -/
def c9Route0 : V2.RouteT V2.DState :=
  V2.RouteT.mk Method.ANY (str "/*") (V2.fixPath (str "/") (str "/*")) true 0
    (V2.HandlerT.fn (FnT.withNext fun s => (s, true)))

/-- Claim C9 scenario: middleware with routeIndex 1 that aborts the chain by
resolving its continuation with false. -/
def c9Route1 : V2.RouteT V2.DState :=
  V2.RouteT.mk Method.ANY (str "/*") (V2.fixPath (str "/") (str "/*")) true 1
    (V2.HandlerT.fn (FnT.withNext fun s => (s, false)))

/-- Claim C9 scenario: middleware with routeIndex 2, after the abort point. -/
def c9Route2 : V2.RouteT V2.DState :=
  V2.RouteT.mk Method.ANY (str "/*") (V2.fixPath (str "/") (str "/*")) true 2
    (V2.HandlerT.fn (FnT.withNext fun s => (s, true)))

/-- Claim C9 scenario: the terminal GET route with routeIndex 3. -/
def c9Route3 : V2.RouteT V2.DState :=
  V2.RouteT.mk Method.GET (str "/page") (V2.fixPath (str "/") (str "/page")) false 3
    (V2.HandlerT.fn (FnT.auto fun s => Except.ok s))

/-- Claim C9 scenario tree. -/
def c9Tree : V2.RouterT V2.DState :=
  V2.RouterT.node (str "/")
    (V2.RouteListT.cons c9Route0
      (V2.RouteListT.cons c9Route1
        (V2.RouteListT.cons c9Route2 (V2.RouteListT.cons c9Route3 V2.RouteListT.nil))))

/-- Claim C9 scenario initial dispatch state. -/
def c9Init : V2.DState := ⟨⟨str "/page/", Method.GET, none, none⟩, {}⟩

/-- Claim C4 scenario: a request whose path no route matches. -/
def c4Req : V2.ReqState := ⟨str "/missing/", Method.GET, none, none⟩

/-- Claim C4 scenario: a terminal route whose handler rejects. -/
def c4ThrowRoute : V2.RouteT V2.DState :=
  V2.RouteT.mk Method.GET (str "/boom") (V2.fixPath (str "/") (str "/boom")) false 0
    (V2.HandlerT.fn (FnT.auto fun _ => Except.error (RouterError.handlerFailure 7)))

/-- Claim C4 scenario tree with the rejecting terminal route. -/
def c4ThrowTree : V2.RouterT V2.DState :=
  V2.RouterT.node (str "/") (V2.RouteListT.cons c4ThrowRoute V2.RouteListT.nil)

/-- Claim C4 scenario initial dispatch state for the rejecting handler. -/
def c4Init : V2.DState := ⟨⟨str "/boom/", Method.GET, none, none⟩, {}⟩

/-- Claim C2 scenario initial dispatch state for a request matching nothing. -/
def c2Init : V2.DState := ⟨⟨str "/missing/", Method.GET, none, none⟩, {}⟩

/-- Claim C5 scenario, mounted variant.  JS execution order:
router.use with the path and the api router computes
usePath := root.fixPath applied to the api path, initializes the api router
(its basePath becomes fixPath of usePath over the freshly reset root slash,
src/unnamed/part_001 lines 152-158 and 232-253) and appends to the root a
middleware Route whose handler is the api router, consuming routeIndex 0;
api.get then appends a GET route to the mounted api router, consuming
routeIndex 1.  Mounting aliases the child in JS, so the tree value after both
calls carries the post-registration api router inside the mount route. -/
def mountedTree {σ : Type} (h : FnT σ) : V2.RouterT σ :=
  let usePath := V2.fixPath (str "/") (str "/api")
  let subBase := V2.fixPath (str "/") usePath
  let timeRoute :=
    (V2.createRoute subBase ⟨str "/time", V2.HandlerT.fn h, Method.GET, false, none⟩ 1).1
  let api : V2.RouterT σ :=
    V2.RouterT.node subBase (V2.RouteListT.cons timeRoute V2.RouteListT.nil)
  let mountRoute :=
    (V2.createRoute (str "/") ⟨usePath, V2.HandlerT.sub api, Method.ANY, true, none⟩ 0).1
  V2.RouterT.node (str "/") (V2.RouteListT.cons mountRoute V2.RouteListT.nil)

/-- Claim C5 scenario, direct variant: the same handler registered for the
concatenated path directly on the root router. -/
def directTree {σ : Type} (h : FnT σ) : V2.RouterT σ :=
  V2.RouterT.node (str "/")
    (V2.RouteListT.cons
      ((V2.createRoute (str "/") ⟨str "/api/time", V2.HandlerT.fn h, Method.GET, false, none⟩ 0).1)
      V2.RouteListT.nil)

/-- The observable match outcome of one matching route: its compiled pattern
path, method, middleware flag, handler and extracted parameters - everything
except registration bookkeeping (raw input path and routeIndex). -/
def matchOutcome {σ : Type} (m : V2.MatchingRoute σ) :
    Str × Method × Bool × V2.HandlerT σ × Params :=
  (m.route.fixedPath, m.route.method, m.route.isMiddleware, m.route.handler, m.matchData)

/-- Claim C6 scenario: root.use connects a sub-router to the root, which
writes neither router's mainRouter field (no statement in the sources ever
assigns mainRouter after the constructor).  Serving a request on the root and
then on the sub-router runs the lazy main-assignment guard on each router's
own flags in sequence. -/
def serveBothRouters (w : V2.MainFlags × V2.MainFlags) :
    Except RouterError (V2.MainFlags × V2.MainFlags) :=
  match V2.serveRequestGuardP1 w.1 with
  | Except.error e => Except.error e
  | Except.ok r1 =>
      match V2.serveRequestGuardP1 w.2 with
      | Except.error e => Except.error e
      | Except.ok r2 => Except.ok (r1, r2)

namespace Legacy

/-- Router.fixHandlerPath from src/src/Router.ts lines 238-242: prepend the
basePath (null until the router is mounted, hence Option) and apply the
trailing-slash ternary: keep a path that already ends with a slash, append a
slash unless the path ends with a no-append character. -/
def fixHandlerPath (basePath : Option Str) (inputPath : Str) : Str :=
  (basePath.getD []) ++
    (if endsWithChar inputPath '/' then inputPath
      else if !(noAppendSlashIfCharacters.any fun c => endsWithChar inputPath c) then
        inputPath ++ ['/']
      else inputPath)

/-- Router.fixUsePath from src/src/Router.ts lines 244-249: prepend basePath
and a slash, and slice away one leading and one trailing slash from the
argument (JS slice start end is take end followed by drop start). -/
def fixUsePath (basePath : Option Str) (a : Str) : Str :=
  (basePath.getD []) ++ ['/'] ++
    ((a.take (if endsWithChar a '/' then a.length - 1 else a.length)).drop
      (if startsWithSlash a then 1 else 0))

/-- The fields of RouterRequest (src/src/RouterRequest.ts) used by dispatch:
parsed path and method plus matchedParams.  URL and header parsing are
external collaborators. -/
structure LReq where
  path : Str
  method : Method
  matchedParams : Option Params := none
deriving DecidableEq

/-- The responseOptions accumulator and locals of RouterResponse
(src/src/RouterResponse.ts lines 25-91). -/
structure LResp where
  rType : RKind := RKind.normal
  status : Str := str "OK"
  statusCode : Nat := 200
  headers : List (Str × Str) := []
  tasks : List Nat := []
  body : Option Str := none
  redirectToUrl : Option Str := none
  redirectStatusCode : Option Nat := none
  customResponse : Option Resp := none
  locals : List (Str × Str) := []
deriving DecidableEq

/-- The per-request state threaded through the legacy dispatcher. -/
structure LState where
  req : LReq
  res : LResp
deriving DecidableEq

/-- RouterResponse.setContentType from src/src/RouterResponse.ts. -/
def setContentType (contentType : Str) (res : LResp) : LResp :=
  { res with headers := setHeaderKV res.headers (str "content-type") contentType }

/-- RouterResponse.text: set the body, then the text/plain content type. -/
def text (t : Str) (res : LResp) : LResp :=
  setContentType (str "text/plain") { res with body := some t }

/-- RouterResponse.status: set the status text. -/
def status (statusText : Str) (res : LResp) : LResp :=
  { res with status := statusText }

/-- RouterResponse.statusCode: set the status code. -/
def statusCode (code : Nat) (res : LResp) : LResp :=
  { res with statusCode := code }

mutual

inductive LRouter : Type where
  | node (basePath : Option Str) (routes : LRouteList) : LRouter

inductive LRouteList : Type where
  | nil : LRouteList
  | cons (head : LRoute) (tail : LRouteList) : LRouteList

inductive LRoute : Type where
  | mk (method : Method) (rawInput : Str) (fixed : Str) (isMiddleware : Bool)
      (handler : LHandler) : LRoute

inductive LHandler : Type where
  | fn (f : FnT LState) : LHandler
  | sub (child : LRouter) : LHandler

end

def LRoute.method : LRoute → Method
  | .mk m _ _ _ _ => m

def LRoute.rawInput : LRoute → Str
  | .mk _ p _ _ _ => p

def LRoute.fixed : LRoute → Str
  | .mk _ _ f _ _ => f

def LRoute.isMiddleware : LRoute → Bool
  | .mk _ _ _ b _ => b

def LRoute.handler : LRoute → LHandler
  | .mk _ _ _ _ h => h

/-- Whether the route handler is a Router instance (the handler instanceof
Router tests in src/src/Router.ts). -/
def LRoute.isHandlerRouter (r : LRoute) : Bool :=
  match r.handler with
  | .sub _ => true
  | .fn _ => false

/-- The Route constructor of src/src/Router.ts lines 40-57: the fixed path is
fixUsePath for middlewares and fixHandlerPath otherwise, computed against the
owning router's basePath. -/
def mkRoute (basePath : Option Str) (method : Method) (inputPath : Str)
    (isMiddleware : Bool) (handler : LHandler) : LRoute :=
  LRoute.mk method inputPath
    (if isMiddleware then fixUsePath basePath inputPath else fixHandlerPath basePath inputPath)
    isMiddleware handler

/-- One entry of the fillArray in getMatchingRoutesByPath: a route and its
match data. -/
structure LMatch where
  route : LRoute
  matchData : Params

mutual

/-- Router.getMatchingRoutesByPath from src/src/Router.ts lines 197-224: walk
the routes in order, recurse into Router handlers; otherwise push a matching
route with its match object, and push a NON-matching route with an empty
match object whenever its fixed path is the one-character string star. -/
def getMatchingRoutesByPath (M : Matcher) (totalPath : Str) : LRouter → List LMatch
  | .node _ routes => getMatchingRoutesByPathList M totalPath routes

def getMatchingRoutesByPathList (M : Matcher) (totalPath : Str) :
    LRouteList → List LMatch
  | .nil => []
  | .cons (.mk _m _ri _fx _mw (.sub child)) rest =>
      getMatchingRoutesByPath M totalPath child ++
        getMatchingRoutesByPathList M totalPath rest
  | .cons (.mk m ri fx mw (.fn f)) rest =>
      (match M fx totalPath with
        | some ps => [⟨.mk m ri fx mw (.fn f), ps⟩]
        | none =>
            if fx = str "*" then [⟨.mk m ri fx mw (.fn f), []⟩] else []) ++
        getMatchingRoutesByPathList M totalPath rest

end

/-- Router.getMatchingRoutesByPathAndMethod from src/src/Router.ts lines
226-236: filter the path matches by method, where ANY always passes. -/
def getMatchingRoutesByPathAndMethod (M : Matcher) (path : Str) (method : Method)
    (r : LRouter) : List LMatch :=
  (getMatchingRoutesByPath M path r).filter fun matched =>
    decide (matched.route.method = method) || decide (matched.route.method = Method.ANY)

mutual

/-- Membership of a route anywhere in a router tree (directly in the route
list or inside a mounted sub-router). -/
def routeMem (rt : LRoute) : LRouter → Prop
  | .node _ routes => routeMemList rt routes

/-- Membership of a route in a route list, looking through Router handlers. -/
def routeMemList (rt : LRoute) : LRouteList → Prop
  | .nil => False
  | .cons r rest => rt = r ∨ routeMemRoute rt r ∨ routeMemList rt rest

/-- Membership of a route inside the sub-router of a mount route. -/
def routeMemRoute (rt : LRoute) : LRoute → Prop
  | .mk _ _ _ _ (.sub child) => routeMem rt child
  | .mk _ _ _ _ (.fn _) => False

end

/-- Router.executeMiddleware from src/src/Router.ts lines 370-394, the same
structure as the V2 variant (the arity check is handler.length === 3): a
withNext handler is called and the chain waits for the boolean given to the
continuation; any other handler reaches `await (async () => handler(request,
response))`, which constructs the async closure but never applies it, so the
handler body does not run and the promise resolves true.  The reject
parameter of the promise executor is never called, so the catch at the call
site is unreachable. -/
def executeMiddleware (r : LRoute) (s : LState) : LState × Bool :=
  match r.handler with
  | .fn (.withNext f) => f s
  | .fn (.auto f) =>
      let _neverInvokedClosure := fun (_ : Unit) => f s
      (s, true)
  | .sub _ => (s, true)

/-- The middleware for-loop of processRequest (src/src/Router.ts lines
315-335): run each middleware in order and stop at the first failure. -/
def middlewareLoop : List LMatch → LState → LState × Bool
  | [], s => (s, true)
  | m :: rest, s =>
      match executeMiddleware m.route s with
      | (s1, true) => middlewareLoop rest s1
      | (s1, false) => (s1, false)

/-- The BuiltResponse record of src/src/RouterResponse.ts lines 16-21. -/
structure BuiltResponse where
  tasks : List Nat
  response : Resp
  routerResponse : LResp
  routerRequest : LReq
deriving DecidableEq

/-- RouterResponse.build from src/src/RouterResponse.ts lines 173-210: when
the owning router has a customResponseBuilder it produces the response value;
otherwise a redirect response requires a redirect URL (else throw), a normal
response is assembled from body/status/headers, and a custom response
requires the stored custom response (else throw).  The final null check of
the source is unreachable.  The artifact also carries the response and
request objects. -/
def build (builder : Option (LResp → Resp)) (req : LReq) (res : LResp) :
    Except RouterError BuiltResponse :=
  match builder with
  | some b => Except.ok ⟨res.tasks, b res, res, req⟩
  | none =>
      if res.rType = RKind.redirect then
        match res.redirectToUrl with
        | none => Except.error RouterError.noRedirectUrl
        | some u => Except.ok ⟨res.tasks, Resp.redirected (some u) res.redirectStatusCode, res, req⟩
      else if res.rType = RKind.normal then
        Except.ok ⟨res.tasks, Resp.page res.body res.statusCode res.status res.headers, res, req⟩
      else
        match res.customResponse with
        | none => Except.error RouterError.noCustomResponse
        | some c => Except.ok ⟨res.tasks, c, res, req⟩

/-- build as a state transformer: the method only reads responseOptions and
constructs the artifact; it assigns no field of the response, so the response
state after the call is returned unchanged. -/
def buildRun (builder : Option (LResp → Resp)) (req : LReq) (res : LResp) :
    Except RouterError BuiltResponse × LResp :=
  (build builder req res, res)

/-- Router.finishResponse from src/src/Router.ts lines 357-368: build the
response, then overwrite the artifact's response value with the
customResponseBuilder output when one is configured. -/
def finishResponse (builder : Option (LResp → Resp)) (req : LReq) (res : LResp) :
    Except RouterError BuiltResponse :=
  (build builder req res).map fun built =>
    match builder with
    | some b => { built with response := b res }
    | none => built

/-- The terminal invocation `await responseMatch.route.handler(routerRequest,
routerResponse)` of src/src/Router.ts lines 346-349; a Router handler was
already rejected before this point. -/
def invokeResponseHandler (r : LRoute) (s : LState) : Except RouterError LState :=
  match r.handler with
  | .fn (.auto f) => f s
  | .fn (.withNext f) => Except.ok (f s).1
  | .sub _ => Except.error RouterError.responseHandlerIsRouter

/-- Router.processRequest from src/src/Router.ts lines 287-355: match by path
only (this call site applies no method filter), select middlewares whose
handler is not a Router, take the first non-middleware match.  When none
exists, mutate the response with statusCode 404, status Not found and the
plain-text 404 body, and finish the response instead of throwing.  Otherwise
reject a Router-typed terminal handler, run the middleware chain with
abort-on-failure, attach the matched params and run the terminal handler
(whose rejection propagates), then finish the response. -/
def processRequest (builder : Option (LResp → Resp)) (M : Matcher) (r : LRouter)
    (s0 : LState) : Except RouterError BuiltResponse :=
  match ((getMatchingRoutesByPath M s0.req.path r).filter
      fun m => !m.route.isMiddleware).head? with
  | none =>
      finishResponse builder s0.req
        (text (str "Error 404 - not found!") (status (str "Not found") (statusCode 404 s0.res)))
  | some rm =>
      if rm.route.isHandlerRouter then Except.error RouterError.responseHandlerIsRouter
      else
        match middlewareLoop (((getMatchingRoutesByPath M s0.req.path r).filter
            fun m => m.route.isMiddleware).filter fun m => !m.route.isHandlerRouter) s0 with
        | (s1, false) => finishResponse builder s1.req s1.res
        | (s1, true) =>
            match invokeResponseHandler rm.route
                ⟨{ s1.req with matchedParams := some rm.matchData }, s1.res⟩ with
            | Except.error e => Except.error e
            | Except.ok s2 => finishResponse builder s2.req s2.res

/-- The response state produced by the 404 branch of processRequest: the
chained setter calls statusCode 404, status Not found, text applied to the
fresh response state that serveRequest constructs. -/
def notFoundResponseState : LResp :=
  text (str "Error 404 - not found!") (status (str "Not found") (statusCode 404 {}))

end Legacy

/-- Claim C3 scenario: an auto-continue middleware handler that records a
flag in response locals. -/
def c3TouchFn : Legacy.LState → Except RouterError Legacy.LState := fun s =>
  Except.ok ⟨s.req,
    { s.res with locals := setHeaderKV s.res.locals (str "hasTouched") (str "yes") }⟩

/-- Claim C3 scenario: the locals-writing middleware registered through
router.use (raw path star, middleware flag set). -/
def c3TouchRoute : Legacy.LRoute :=
  Legacy.mkRoute none Method.ANY (str "*") true (Legacy.LHandler.fn (FnT.auto c3TouchFn))

/-- Claim C3 scenario: an auto-continue middleware whose handler rejects. -/
def c3ThrowRoute : Legacy.LRoute :=
  Legacy.mkRoute none Method.ANY (str "*") true
    (Legacy.LHandler.fn (FnT.auto fun _ => Except.error (RouterError.handlerFailure 1)))

/-- Claim C3 scenario: the dispatch state the middleware runs on. -/
def c3State : Legacy.LState := ⟨⟨str "/", Method.GET, none⟩, {}⟩

/-- Claim C8 scenario: the request attached to the response. -/
def c8Req : Legacy.LReq := ⟨str "/", Method.GET, none⟩

/-- Claim C8 scenario: the response state at the first build call (fresh). -/
def c8ResFirst : Legacy.LResp := {}

/-- Claim C8 scenario: the same response object at the second build call,
after the caller mutated it through its own statusCode setter in between. -/
def c8ResSecond : Legacy.LResp := Legacy.statusCode 500 {}

/-- Claim C10 scenario: a non-middleware route registered with raw path star
under an empty base path, whose fixed path is therefore the one-character
star string. -/
def c10Route : Legacy.LRoute :=
  Legacy.mkRoute none Method.GET (str "*") false
    (Legacy.LHandler.fn (FnT.auto fun s => Except.ok s))

/-- Claim C10 scenario: a router whose only route is the star route. -/
def c10Router : Legacy.LRouter :=
  Legacy.LRouter.node none (Legacy.LRouteList.cons c10Route Legacy.LRouteList.nil)

/-- Claim C2 scenario: a legacy router with no routes at all. -/
def c2LegacyRouter : Legacy.LRouter := Legacy.LRouter.node none Legacy.LRouteList.nil

/-- Claim C2 scenario: the request that matches nothing. -/
def c2LegacyReq : Legacy.LReq := ⟨str "/missing/", Method.GET, none⟩

theorem endsWithChar_concat (l : Str) (c : Char) : endsWithChar (l ++ [c]) c = true := by
  simp [endsWithChar]

theorem jsAppendTrailingSlash_head (s0 : Str) :
    ∃ t : Str, jsAppendTrailingSlash ('/' :: s0) = '/' :: t ∧
      (endsWithChar ('/' :: t) '/'
        || (noAppendSlashIfCharacters.any fun c => endsWithChar ('/' :: t) c)) = true := by
  unfold jsAppendTrailingSlash
  cases he : endsWithChar ('/' :: s0) '/'
  · cases ha : (noAppendSlashIfCharacters.any fun c => endsWithChar ('/' :: s0) c)
    · refine ⟨s0 ++ ['/'], ?_, ?_⟩
      · simp [he, ha]
      · have hcons : ('/' :: (s0 ++ ['/'])) = ('/' :: s0) ++ ['/'] := rfl
        rw [hcons, endsWithChar_concat]
        simp
    · refine ⟨s0, ?_, ?_⟩
      · simp [he, ha]
      · simp [ha]
  · refine ⟨s0, ?_, ?_⟩
    · simp [he]
    · simp [he]

theorem fixPath_root_head (p : Str) :
    ∃ t : Str, V2.fixPath (str "/") p = '/' :: t ∧
      (endsWithChar ('/' :: t) '/'
        || (noAppendSlashIfCharacters.any fun c => endsWithChar ('/' :: t) c)) = true :=
  jsAppendTrailingSlash_head (if startsWithSlash p then p.drop 1 else p)

theorem fixPath_root_idem (p : Str) :
    V2.fixPath (str "/") (V2.fixPath (str "/") p) = V2.fixPath (str "/") p := by
  obtain ⟨t, hq, hend⟩ := fixPath_root_head p
  rw [hq]
  have h1 : V2.fixPath (str "/") ('/' :: t) = jsAppendTrailingSlash ('/' :: t) := rfl
  rw [h1]
  unfold jsAppendTrailingSlash
  rcases Bool.or_eq_true_iff.mp hend with h | h
  · simp [h]
  · simp [h]

theorem getLast?_append_right (s t : Str) (h : t ≠ []) :
    (s ++ t).getLast? = t.getLast? := by
  rw [List.getLast?_append, Option.or_of_isSome]
  rw [List.getLast?_isSome]
  exact h

theorem fixPath_noAppend_ending (b p : Str) (c : Char)
    (hc : c ∈ noAppendSlashIfCharacters) (hp : endsWithChar p c = true) :
    endsWithChar (V2.fixPath b p) '/' = false := by
  have hcslash : c ≠ '/' := by
    simp only [noAppendSlashIfCharacters, List.mem_cons, List.not_mem_nil, or_false] at hc
    rcases hc with h | h | h <;> subst h <;> decide
  have hstrip : endsWithChar (if startsWithSlash p then p.drop 1 else p) c = true := by
    cases hs : startsWithSlash p
    · simpa [hs] using hp
    · cases p with
      | nil => simp [startsWithSlash] at hs
      | cons a rest =>
        have ha : a = '/' := by simpa [startsWithSlash] using hs
        subst ha
        cases rest with
        | nil =>
          exfalso
          apply hcslash
          have := hp
          simp [endsWithChar] at this
          exact this.symm
        | cons d l =>
          simpa [hs, endsWithChar, List.getLast?_cons_cons] using hp
  set stripped := (if startsWithSlash p then p.drop 1 else p) with hstripped
  have hne : stripped ≠ [] := by
    intro h
    rw [h] at hstrip
    simp [endsWithChar] at hstrip
  have hlast : (b ++ stripped).getLast? = some c := by
    rw [getLast?_append_right _ _ hne]
    simpa [endsWithChar] using hstrip
  have hany : (noAppendSlashIfCharacters.any fun x => endsWithChar (b ++ stripped) x) = true :=
    List.any_eq_true.mpr ⟨c, hc, by simp [endsWithChar, hlast]⟩
  have hfix : V2.fixPath b p = jsAppendTrailingSlash (b ++ stripped) := by
    rw [hstripped]
    rfl
  rw [hfix]
  unfold jsAppendTrailingSlash
  rw [hany]
  simp [endsWithChar, hlast, hcslash]

/-- Claim C7 counterexample: for a router whose basePath is not the root
(for example a sub-router mounted at /api, whose basePath becomes /api/),
fixPath is not idempotent: normalizing the already-normalized path /api/time/
prepends the base again and yields /api/api/time/. -/
theorem c7_counterexample :
    V2.fixPath (str "/api/") (V2.fixPath (str "/api/") (str "/time")) ≠
      V2.fixPath (str "/api/") (str "/time") := by
  decide

/-- Claim C7 (amended): fixPath is idempotent for a router whose basePath is
the constructor default root slash: renormalizing an already-normalized path
returns it unchanged.  For a longer basePath the base is prepended again, so
idempotence fails (see the counterexample).  Paths ending in one of the
no-append terminator characters never receive a trailing slash. -/
theorem c7_fixPath_idempotent_at_root_and_noAppend :
    (∀ p : Str, V2.fixPath (str "/") (V2.fixPath (str "/") p) = V2.fixPath (str "/") p) ∧
    (∀ (b p : Str) (c : Char), c ∈ noAppendSlashIfCharacters → endsWithChar p c = true →
      endsWithChar (V2.fixPath b p) '/' = false) :=
  ⟨fixPath_root_idem, fixPath_noAppend_ending⟩

/-- Claim C7 witness: the amended theorem evaluated at concrete inputs. -/
theorem c7_witness :
    V2.fixPath (str "/") (V2.fixPath (str "/") (str "/time")) = V2.fixPath (str "/") (str "/time") ∧
    endsWithChar (V2.fixPath (str "/x/") (str "/a*")) '/' = false :=
  ⟨c7_fixPath_idempotent_at_root_and_noAppend.1 (str "/time"),
    c7_fixPath_idempotent_at_root_and_noAppend.2 (str "/x/") (str "/a*") '*' (by decide) (by decide)⟩

theorem runMiddlewareLoop_cons_true {σ : Type} (m : V2.MatchingRoute σ)
    (rest : List (V2.MatchingRoute σ)) (s s1 s2 : σ) (allOk : Bool) (tr : List Ev)
    (hex : V2.executeMiddleware m.route s = (s1, true))
    (hrec : V2.runMiddlewareLoop rest s1 = (s2, allOk, tr)) :
    V2.runMiddlewareLoop (m :: rest) s = (s2, allOk, Ev.mw m.route.routeIndex :: tr) := by
  unfold V2.runMiddlewareLoop
  rw [hex]
  dsimp only
  rw [hrec]

theorem runMiddlewareLoop_cons_false {σ : Type} (m : V2.MatchingRoute σ)
    (rest : List (V2.MatchingRoute σ)) (s s1 : σ)
    (hex : V2.executeMiddleware m.route s = (s1, false)) :
    V2.runMiddlewareLoop (m :: rest) s = (s1, false, [Ev.mw m.route.routeIndex]) := by
  unfold V2.runMiddlewareLoop
  rw [hex]

theorem runMiddlewareLoop_append_abort {σ : Type} (pre : List (V2.MatchingRoute σ))
    (m : V2.MatchingRoute σ) (post : List (V2.MatchingRoute σ)) (s s2 s3 : σ)
    (tr : List Ev) (h1 : V2.runMiddlewareLoop pre s = (s2, true, tr))
    (h2 : V2.executeMiddleware m.route s2 = (s3, false)) :
    V2.runMiddlewareLoop (pre ++ m :: post) s = (s3, false, tr ++ [Ev.mw m.route.routeIndex]) := by
  induction pre generalizing s tr with
  | nil =>
    simp only [V2.runMiddlewareLoop, Prod.mk.injEq] at h1
    obtain ⟨ha, -, hc⟩ := h1
    subst ha
    subst hc
    simp only [List.nil_append, List.nil_append]
    exact runMiddlewareLoop_cons_false m post _ _ h2
  | cons a as ih =>
    rcases hex : V2.executeMiddleware a.route s with ⟨s1, ok⟩
    cases ok with
    | false =>
      rw [runMiddlewareLoop_cons_false a as s s1 hex] at h1
      simp at h1
    | true =>
      rcases hrec : V2.runMiddlewareLoop as s1 with ⟨s2x, allOk, trx⟩
      rw [runMiddlewareLoop_cons_true a as s s1 s2x allOk trx hex hrec] at h1
      simp only [Prod.mk.injEq] at h1
      obtain ⟨ha, hb, hc⟩ := h1
      subst ha
      subst hc
      have hstep := ih s1 trx (by rw [hrec, hb])
      rw [List.cons_append,
        runMiddlewareLoop_cons_true a (as ++ m :: post) s s1 s3 false
          (trx ++ [Ev.mw m.route.routeIndex]) hex hstep]
      simp

theorem processRequestWith_none (le : V2.MatchingRoute V2.DState → V2.MatchingRoute V2.DState → Bool)
    (builder : Option (V2.RespState → Resp)) (M : Matcher) (r : V2.RouterT V2.DState)
    (s0 : V2.DState) (hrh : V2.responseHandlerOf M s0.req r = none) :
    V2.processRequestWith le builder M r s0 = Except.error RouterError.noResponseHandler := by
  unfold V2.processRequestWith
  rw [hrh]

theorem processRequestWith_some (le : V2.MatchingRoute V2.DState → V2.MatchingRoute V2.DState → Bool)
    (builder : Option (V2.RespState → Resp)) (M : Matcher) (r : V2.RouterT V2.DState)
    (s0 : V2.DState) (rh : V2.MatchingRoute V2.DState)
    (hrh : V2.responseHandlerOf M s0.req r = some rh) :
    V2.processRequestWith le builder M r s0 =
      (match V2.runMiddlewareLoop (V2.orderedMiddlewares le M s0.req r) (V2.setMatched rh s0) with
        | (s2, true, tr) =>
            match V2.invokeTerminal rh.route s2 with
            | Except.ok s3 =>
                Except.ok (V2.finishResponse builder s3, tr ++ [Ev.terminal rh.route.routeIndex])
            | Except.error e => Except.error e
        | (s2, false, tr) => Except.ok (V2.finishResponse builder s2, tr)) := by
  unfold V2.processRequestWith
  rw [hrh]

/-- Claim C9: if the middleware at position i of the ordered chain aborts
(its continuation resolves to false), then no middleware after it executes,
the terminal handler does not execute, and dispatch proceeds directly to
finishResponse on the state at the abort point.  The conclusion returns the
exact execution trace: the events of the successful elements before the abort
point plus the aborting middleware, and nothing else. -/
theorem c9_abort_stops_chain (builder : Option (V2.RespState → Resp)) (M : Matcher)
    (r : V2.RouterT V2.DState) (s0 : V2.DState) (rh : V2.MatchingRoute V2.DState)
    (pre : List (V2.MatchingRoute V2.DState)) (m : V2.MatchingRoute V2.DState)
    (post : List (V2.MatchingRoute V2.DState)) (tr : List Ev) (s2 s3 : V2.DState)
    (hrh : V2.responseHandlerOf M s0.req r = some rh)
    (hsplit : V2.orderedMiddlewares V2.mwLeAscending M s0.req r = pre ++ m :: post)
    (hpre : V2.runMiddlewareLoop pre (V2.setMatched rh s0) = (s2, true, tr))
    (habort : V2.executeMiddleware m.route s2 = (s3, false)) :
    V2.processRequestP1 builder M r s0 =
      Except.ok (V2.finishResponse builder s3, tr ++ [Ev.mw m.route.routeIndex]) := by
  unfold V2.processRequestP1
  rw [processRequestWith_some V2.mwLeAscending builder M r s0 rh hrh]
  rw [hsplit, runMiddlewareLoop_append_abort pre m post _ s2 s3 tr hpre habort]

/-- Claim C9 witness: in a chain of three matching middlewares with route
indices 0, 1, 2 followed by a terminal route, middleware 1 aborting leaves
the trace at exactly the events of middlewares 0 and 1. -/
theorem c9_witness :
    V2.processRequestP1 none alwaysMatcher c9Tree c9Init =
      Except.ok (V2.finishResponse none (V2.setMatched ⟨c9Route3, []⟩ c9Init),
        [Ev.mw 0, Ev.mw 1]) :=
  c9_abort_stops_chain none alwaysMatcher c9Tree c9Init ⟨c9Route3, []⟩
    [⟨c9Route0, []⟩] ⟨c9Route1, []⟩ [⟨c9Route2, []⟩] [Ev.mw 0]
    (V2.setMatched ⟨c9Route3, []⟩ c9Init) (V2.setMatched ⟨c9Route3, []⟩ c9Init)
    rfl rfl rfl rfl

/-- Claim C1: at a concrete request matched by two middlewares with route
indices 0 and 1 (registered in that order) and one terminal route, the
dispatcher of src/src/router/Router.ts executes the middlewares in descending
routeIndex order 1, 0 - not ascending - because its comparator is
(a, b) => b.route.routeIndex - a.route.routeIndex; the variant kept in
src/unnamed/part_001 executes them ascending 0, 1 at the same input. -/
theorem c1_descending_execution_order :
    (V2.processRequest none alwaysMatcher c1Tree c1Init).map (fun x => x.2) =
      Except.ok [Ev.mw 1, Ev.mw 0, Ev.terminal 2] ∧
    (V2.processRequestP1 none alwaysMatcher c1Tree c1Init).map (fun x => x.2) =
      Except.ok [Ev.mw 0, Ev.mw 1, Ev.terminal 2] :=
  ⟨rfl, rfl⟩

/-- Claim C4 counterexample: serveRequest does not always resolve to a built
artifact: for a request that no route matches, the dispatcher of
src/src/router/Router.ts propagates an error instead of synthesizing a 404 or
500 response. -/
theorem c4_counterexample :
    (V2.serveRequest none noneMatcher emptyRouterV2 {} c4Req).1 =
      Except.error RouterError.noResponseHandler :=
  rfl

/-- Claim C4 (amended): serveRequest resolves to an artifact only on the happy
path.  When no non-middleware route matches, serveRequest fails with the
no-response-handler error (no 404 or 500 response is synthesized; only the
legacy dispatcher in src/src/Router.ts synthesizes a 404, see claim C2); and
a rejecting terminal handler propagates its error out of processRequest
uncaught. -/
theorem c4_serveRequest_error_modes :
    (∀ (builder : Option (V2.RespState → Resp)) (M : Matcher) (r : V2.RouterT V2.DState)
        (mf : V2.MainFlags) (req : V2.ReqState),
      V2.responseHandlerOf M
          ({ req with matchedParams := none, matchedRouteIndex := none } : V2.ReqState) r = none →
      mf.mainRouter = none →
      (V2.serveRequest builder M r mf req).1 = Except.error RouterError.noResponseHandler) ∧
    (∀ (builder : Option (V2.RespState → Resp)) (M : Matcher) (r : V2.RouterT V2.DState)
        (s0 : V2.DState) (rh : V2.MatchingRoute V2.DState) (e : RouterError),
      V2.responseHandlerOf M s0.req r = some rh →
      V2.orderedMiddlewares V2.mwLeDescending M s0.req r = [] →
      V2.invokeTerminal rh.route (V2.setMatched rh s0) = Except.error e →
      V2.processRequest builder M r s0 = Except.error e) := by
  constructor
  · intro builder M r mf req hnone hmain
    have hguard : ∃ m1, V2.serveRequestGuard mf = Except.ok m1 := by
      unfold V2.serveRequestGuard V2.assignSelfAsMainRouter
      cases hmf : mf.isMainRouter
      · rw [hmain]
        simp
      · simp
    obtain ⟨m1, hm1⟩ := hguard
    unfold V2.serveRequest
    rw [hm1]
    exact processRequestWith_none V2.mwLeDescending builder M r _ hnone
  · intro builder M r s0 rh e hrh hmw hterm
    unfold V2.processRequest
    rw [processRequestWith_some V2.mwLeDescending builder M r s0 rh hrh]
    rw [hmw]
    have hempty : V2.runMiddlewareLoop ([] : List (V2.MatchingRoute V2.DState))
        (V2.setMatched rh s0) = (V2.setMatched rh s0, true, []) := rfl
    rw [hempty]
    dsimp only
    rw [hterm]

/-- Claim C4 witness: the amended theorem evaluated at concrete inputs - an
unmatched request fails with the no-response-handler error, and a terminal
handler rejecting with failure code 7 propagates that error. -/
theorem c4_witness :
    (V2.serveRequest none noneMatcher emptyRouterV2 ⟨none, true⟩ c4Req).1 =
      Except.error RouterError.noResponseHandler ∧
    V2.processRequest none alwaysMatcher c4ThrowTree c4Init =
      Except.error (RouterError.handlerFailure 7) :=
  ⟨c4_serveRequest_error_modes.1 none noneMatcher emptyRouterV2 ⟨none, true⟩ c4Req rfl rfl,
    c4_serveRequest_error_modes.2 none alwaysMatcher c4ThrowTree c4Init
      ⟨c4ThrowRoute, []⟩ (RouterError.handlerFailure 7) rfl rfl rfl⟩

/-- Claim C2 counterexample: dispatch can fail on a request that no route
matches: the dispatcher variant of src/unnamed/part_001 throws the
no-response-handler error instead of returning a 404 artifact. -/
theorem c2_counterexample :
    V2.processRequestP1 none noneMatcher emptyRouterV2 c2Init =
      Except.error RouterError.noResponseHandler :=
  rfl

/-- Claim C5: for every matcher semantics, every request path and method, and
every handler, mounting a sub-router at the api path via use and then
registering the time path on that sub-router produces the same match outcome
(matched or not, and the selected route's compiled path, method, middleware
flag, handler and extracted parameters) as registering the handler for the
concatenated path directly on the root router. -/
theorem c5_mount_equals_direct_registration {σ : Type} (M : Matcher) (h : FnT σ)
    (p : Str) (meth : Method) :
    (V2.findMatchingRoutes M ⟨p, meth, none, none⟩ (mountedTree h)).map matchOutcome =
      (V2.findMatchingRoutes M ⟨p, meth, none, none⟩ (directTree h)).map matchOutcome := by
  have h1 : V2.fixPath (V2.fixPath (str "/") (V2.fixPath (str "/") (str "/api")))
      (str "/time") = str "/api/time/" := rfl
  have h2 : V2.fixPath (str "/") (str "/api/time") = str "/api/time/" := rfl
  dsimp only [mountedTree, directTree, V2.createRoute]
  simp only [V2.findMatchingRoutes, V2.findMatchingRoutesList]
  rw [h1, h2]
  cases hM : M (str "/api/time/") p with
  | none => simp
  | some ps =>
    cases hmm : V2.methodMatches Method.GET meth <;>
      simp [hmm, matchOutcome, V2.RouteT.fixedPath, V2.RouteT.method, V2.RouteT.isMiddleware,
        V2.RouteT.handler]

/-- Claim C6: serving a request on the root router and then on a connected
sub-router marks BOTH routers as main and raises no error, because the
mainRouter field that assignSelfAsMainRouter checks is never written anywhere
in the sources; the lazy assignment itself runs only once per router (a
router already marked main is not re-assigned), and even a direct second
assignSelfAsMainRouter call on another router succeeds silently. -/
theorem c6_second_main_assignment_not_rejected :
    serveBothRouters ({}, {}) =
      Except.ok ({ mainRouter := none, isMainRouter := true },
        { mainRouter := none, isMainRouter := true }) ∧
    V2.serveRequestGuardP1 { mainRouter := none, isMainRouter := true } =
      Except.ok { mainRouter := none, isMainRouter := true } ∧
    V2.assignSelfAsMainRouter { mainRouter := none, isMainRouter := true } =
      Except.ok { mainRouter := none, isMainRouter := true } :=
  ⟨rfl, rfl, rfl⟩

/-- Claim C3: executing an auto-continue middleware (registered without the
continuation parameter) does NOT run its handler and the chain always
advances: the locals-writing handler leaves the state untouched, the
rejecting handler still advances the chain, although actually applying the
locals-writing handler would have produced a different state. -/
theorem c3_auto_middleware_handler_never_runs :
    Legacy.executeMiddleware c3TouchRoute c3State = (c3State, true) ∧
    Legacy.executeMiddleware c3ThrowRoute c3State = (c3State, true) ∧
    c3TouchFn c3State ≠ Except.ok c3State := by
  refine ⟨rfl, rfl, ?_⟩
  intro h
  simp only [c3TouchFn, Except.ok.injEq] at h
  have := congrArg (fun s => s.res.locals) h
  simp [c3State, setHeaderKV, str] at this

mutual

theorem starRouteMatches_router (M : Matcher) (path : Str) (rt : Legacy.LRoute)
    (hfn : rt.isHandlerRouter = false) (hfx : rt.fixed = str "*") :
    ∀ r : Legacy.LRouter, Legacy.routeMem rt r →
      (⟨rt, (M (str "*") path).getD []⟩ : Legacy.LMatch) ∈
        Legacy.getMatchingRoutesByPath M path r
  | .node _bp routes, hmem => starRouteMatches_list M path rt hfn hfx routes hmem

theorem starRouteMatches_list (M : Matcher) (path : Str) (rt : Legacy.LRoute)
    (hfn : rt.isHandlerRouter = false) (hfx : rt.fixed = str "*") :
    ∀ rs : Legacy.LRouteList, Legacy.routeMemList rt rs →
      (⟨rt, (M (str "*") path).getD []⟩ : Legacy.LMatch) ∈
        Legacy.getMatchingRoutesByPathList M path rs
  | .cons r rest, hmem => by
    rcases hmem with heq | hsub | htail
    · subst heq
      cases hr : rt with
      | mk m ri fx mw handler =>
        cases handler with
        | sub child =>
          rw [hr] at hfn
          simp [Legacy.LRoute.isHandlerRouter, Legacy.LRoute.handler] at hfn
        | fn f =>
          have hfx2 : fx = str "*" := by
            rw [hr] at hfx
            simpa [Legacy.LRoute.fixed] using hfx
          subst hfx2
          rw [← hr]
          simp only [Legacy.getMatchingRoutesByPathList, hr]
          cases hM : M (str "*") path with
          | some ps =>
            rw [← hr]
            simp [hM]
          | none =>
            rw [← hr]
            simp [hM]
    · cases r with
      | mk m ri fx mw handler =>
        cases handler with
        | fn f =>
          simp [Legacy.routeMemRoute] at hsub
        | sub child =>
          have hin := starRouteMatches_router M path rt hfn hfx child hsub
          simp only [Legacy.getMatchingRoutesByPathList]
          exact List.mem_append_left _ hin
    · cases r with
      | mk m ri fx mw handler =>
        have hin := starRouteMatches_list M path rt hfn hfx rest htail
        cases handler with
        | fn f =>
          simp only [Legacy.getMatchingRoutesByPathList]
          exact List.mem_append_right _ hin
        | sub child =>
          simp only [Legacy.getMatchingRoutesByPathList]
          exact List.mem_append_right _ hin

end

/-- Claim C10: in the legacy dispatcher, every route in the tree whose fixed
path is the one-character star string and whose handler is a function is
added to the match set for every request path: with the pattern's parameters
when the compiled pattern matches, and with an empty parameter map when it
does not; consequently such a route is also in the method-filtered match set
for every request whose method it accepts. -/
theorem c10_star_route_always_added (M : Matcher) (path : Str) (meth : Method)
    (r : Legacy.LRouter) (rt : Legacy.LRoute)
    (hmem : Legacy.routeMem rt r) (hfn : rt.isHandlerRouter = false)
    (hfx : rt.fixed = str "*") :
    (⟨rt, (M (str "*") path).getD []⟩ : Legacy.LMatch) ∈
        Legacy.getMatchingRoutesByPath M path r ∧
    (M (str "*") path = none →
      (⟨rt, ([] : Params)⟩ : Legacy.LMatch) ∈ Legacy.getMatchingRoutesByPath M path r) ∧
    (rt.method = meth ∨ rt.method = Method.ANY →
      (⟨rt, (M (str "*") path).getD []⟩ : Legacy.LMatch) ∈
        Legacy.getMatchingRoutesByPathAndMethod M path meth r) := by
  have h1 := starRouteMatches_router M path rt hfn hfx r hmem
  refine ⟨h1, ?_, ?_⟩
  · intro hM
    simpa [hM] using h1
  · intro hm
    unfold Legacy.getMatchingRoutesByPathAndMethod
    refine List.mem_filter.mpr ⟨h1, ?_⟩
    rcases hm with h | h <;> simp [h]

/-- Claim C10 witness: the star route is in the match set for a path its
compiled pattern does not match (the matcher rejects everything), with the
empty parameter map, and survives the method filter for its own method. -/
theorem c10_witness :
    (⟨c10Route, ([] : Params)⟩ : Legacy.LMatch) ∈
        Legacy.getMatchingRoutesByPath noneMatcher (str "/x/") c10Router ∧
    (⟨c10Route, ([] : Params)⟩ : Legacy.LMatch) ∈
        Legacy.getMatchingRoutesByPathAndMethod noneMatcher (str "/x/") Method.GET c10Router := by
  have h := c10_star_route_always_added noneMatcher (str "/x/") Method.GET c10Router c10Route
    (Or.inl rfl) rfl rfl
  exact ⟨h.1, h.2.2 (Or.inl rfl)⟩

/-- Claim C2 (amended): in the legacy dispatcher of src/src/Router.ts, a
request for which no non-middleware route matches yields a successful
artifact whose response has status code 404, status text Not found and the
short plain-text body, produced on the fresh response state that serveRequest
constructs; when a customResponseBuilder is configured the artifact's
response value is the builder's output for the 404 state instead.  The
rewritten dispatcher (src/src/router/Router.ts and src/unnamed/part_001)
instead fails with an error on the same condition (see the
counterexample). -/
theorem c2_legacy_404_on_no_match :
    (∀ (M : Matcher) (r : Legacy.LRouter) (req : Legacy.LReq),
      ((Legacy.getMatchingRoutesByPath M req.path r).filter
        fun m => !m.route.isMiddleware) = [] →
      Legacy.processRequest none M r ⟨req, {}⟩ =
        Except.ok ⟨[],
          Resp.page (some (str "Error 404 - not found!")) 404 (str "Not found")
            [(str "content-type", str "text/plain")],
          Legacy.notFoundResponseState, req⟩) ∧
    (∀ (M : Matcher) (r : Legacy.LRouter) (req : Legacy.LReq)
        (b : Legacy.LResp → Resp),
      ((Legacy.getMatchingRoutesByPath M req.path r).filter
        fun m => !m.route.isMiddleware) = [] →
      Legacy.processRequest (some b) M r ⟨req, {}⟩ =
        Except.ok ⟨[], b Legacy.notFoundResponseState, Legacy.notFoundResponseState, req⟩) := by
  constructor
  · intro M r req hfilter
    unfold Legacy.processRequest
    dsimp only
    rw [hfilter]
    rfl
  · intro M r req b hfilter
    unfold Legacy.processRequest
    dsimp only
    rw [hfilter]
    rfl

/-- Claim C2 witness: the amended theorem evaluated on an empty legacy router
and a GET request for a missing path, without and with a configured custom
response builder. -/
theorem c2_witness :
    Legacy.processRequest none noneMatcher c2LegacyRouter ⟨c2LegacyReq, {}⟩ =
      Except.ok ⟨[],
        Resp.page (some (str "Error 404 - not found!")) 404 (str "Not found")
          [(str "content-type", str "text/plain")],
        Legacy.notFoundResponseState, c2LegacyReq⟩ ∧
    Legacy.processRequest (some fun _ => Resp.external 9) noneMatcher c2LegacyRouter
        ⟨c2LegacyReq, {}⟩ =
      Except.ok ⟨[], Resp.external 9, Legacy.notFoundResponseState, c2LegacyReq⟩ :=
  ⟨c2_legacy_404_on_no_match.1 noneMatcher c2LegacyRouter c2LegacyReq rfl,
    c2_legacy_404_on_no_match.2 noneMatcher c2LegacyRouter c2LegacyReq
      (fun _ => Resp.external 9) rfl⟩

/-- Claim C8 counterexample: build has no once-only guard: two build calls on
the same response object, whose state was changed between the calls by its
own statusCode setter, both succeed and silently return two different
artifacts - no FinalizeMisuse error exists anywhere in the code. -/
theorem c8_counterexample :
    Legacy.build none c8Req c8ResFirst =
      Except.ok ⟨[], Resp.page none 200 (str "OK") [], c8ResFirst, c8Req⟩ ∧
    Legacy.build none c8Req c8ResSecond =
      Except.ok ⟨[], Resp.page none 500 (str "OK") [], c8ResSecond, c8Req⟩ ∧
    (⟨[], Resp.page none 200 (str "OK") [], c8ResFirst, c8Req⟩ : Legacy.BuiltResponse) ≠
      ⟨[], Resp.page none 500 (str "OK") [], c8ResSecond, c8Req⟩ :=
  ⟨rfl, rfl, by decide⟩

/-- Claim C8 (amended): build reads the response state and mutates nothing,
so invoking it a second time on an unchanged state returns an artifact equal
to the first invocation's; no misuse error exists - the only errors build can
raise are the missing-redirect-URL and missing-custom-response errors, which
do not depend on how often build was called.  However nothing stops the state
from being mutated between two calls, in which case the second call silently
returns a different artifact (see the counterexample). -/
theorem c8_build_second_call_identical :
    ∀ (builder : Option (Legacy.LResp → Resp)) (req : Legacy.LReq) (res : Legacy.LResp),
      (Legacy.buildRun builder req ((Legacy.buildRun builder req res).2)).1 =
        (Legacy.buildRun builder req res).1 ∧
      (Legacy.buildRun builder req res).2 = res ∧
      ((∃ b, Legacy.build builder req res = Except.ok b) ∨
        Legacy.build builder req res = Except.error RouterError.noRedirectUrl ∨
        Legacy.build builder req res = Except.error RouterError.noCustomResponse) := by
  intro builder req res
  refine ⟨rfl, rfl, ?_⟩
  unfold Legacy.build
  cases builder with
  | some b => exact Or.inl ⟨_, rfl⟩
  | none =>
    by_cases h1 : res.rType = RKind.redirect
    · simp only [h1, if_true]
      cases res.redirectToUrl with
      | none => exact Or.inr (Or.inl rfl)
      | some u => exact Or.inl ⟨_, rfl⟩
    · simp only [h1, if_false]
      by_cases h2 : res.rType = RKind.normal
      · simp only [h2, if_true]
        exact Or.inl ⟨_, rfl⟩
      · simp only [h2, if_false]
        cases res.customResponse with
        | none => exact Or.inr (Or.inr rfl)
        | some c => exact Or.inl ⟨_, rfl⟩
